import Mathlib

/-!
A shallow embedding, in Lean, of the program in `src/main.rs` of the
`rs-tmux-fzf` repository: a tmux session switcher driven by an `fzf`
subprocess.  Pure string processing (line parsing, ranking, output
formatting, CLI dispatch) is translated directly; each effectful
function is modelled as a function of the outcomes of the subprocesses
it spawns (spawn success or OS error, exit status, captured stdout and
stderr), so that every control path of the source is a value of an
explicit result type.  Theorems about these definitions follow after
all definitions.
-/

/-- Split a character list at every character satisfying `p`.  Pieces
between two separators are kept even when empty (Rust `str::split`
semantics at the character level). -/
def splitP (p : Char → Bool) : List Char → List (List Char)
  | [] => [[]]
  | c :: cs =>
    if p c then [] :: splitP p cs
    else
      match splitP p cs with
      | [] => [[c]]
      | piece :: rest => (c :: piece) :: rest

/-- Rust `str::split_whitespace`: the maximal nonempty runs of
non-whitespace characters, in order.  (Rust splits on Unicode
whitespace; `Char.isWhitespace` covers the ASCII cases, which is what
`tmux` emits.) -/
def splitWhitespace (s : String) : List String :=
  ((splitP (fun c => c.isWhitespace) s.data).filter (fun t => !t.isEmpty)).map
    (fun l => String.mk l)

/-- Rust `str::lines`: split on `'\n'`, drop the final empty piece
produced by a trailing newline, and strip one trailing `'\r'` from each
line. -/
def rustLines (s : String) : List String :=
  let ps := splitP (fun c => c = '\n') s.data
  let ps := if ps.getLast? = some [] then ps.dropLast else ps
  ps.map (fun l => String.mk (if l.getLast? = some '\r' then l.dropLast else l))

/-- Rust `str::parse::<uN>()` for an unsigned integer of `bits` bits:
an optional leading `'+'`, then one or more ASCII digits, and the value
must fit; anything else is a parse error (`none`). -/
def parseUInt (bits : Nat) (s : String) : Option Nat :=
  let cs :=
    match s.data with
    | '+' :: rest => rest
    | cs => cs
  if cs = [] then none
  else if cs.all (fun c => c.isDigit) then
    let n := cs.foldl (fun a c => 10 * a + (c.toNat - 48)) 0
    if n < 2 ^ bits then some n else none
  else none

/-- One parsed row of the `tmux list-sessions` output, mirroring lines
80–84 of `main.rs`: the first whitespace token parsed as `u8` is the
attached flag (default `1` on a missing or unparsable token), the second
parsed as `u64` is the last-attached timestamp (default `0`), the third
token is the session name (default `""`).  In the wire format the flag
is `0` for an attached session and `1` for an unattached one. -/
def parseRow (line : String) : Nat × Nat × String :=
  ((((splitWhitespace line).get? 0).bind (fun x => parseUInt 8 x)).getD 1,
    (((splitWhitespace line).get? 1).bind (fun x => parseUInt 64 x)).getD 0,
    ((splitWhitespace line).get? 2).getD "")

/-- The rows `tmux_session_list` keeps (line 86 of `main.rs`): a row
survives iff its name is nonempty and differs from the current
session's name. -/
def sessionRows (s cur : String) : List (Nat × Nat × String) :=
  (rustLines s).filterMap (fun line =>
    if (parseRow line).2.2 ≠ "" ∧ (parseRow line).2.2 ≠ cur then some (parseRow line)
    else none)

/-- The comparator of line 91 of `main.rs`,
`b.0.cmp(&a.0).then(b.1.cmp(&a.1))`, expressed as the relation "`a`
sorts no later than `b`" (the comparator does not answer `Greater`):
descending attached flag, then descending timestamp. -/
def RowLE (a b : Nat × Nat × String) : Prop :=
  b.1 < a.1 ∨ (a.1 = b.1 ∧ b.2.1 ≤ a.2.1)

instance : DecidableRel RowLE := fun a b => by
  unfold RowLE; infer_instance

instance : IsTotal (Nat × Nat × String) RowLE :=
  ⟨fun a b => by unfold RowLE; omega⟩

instance : IsTrans (Nat × Nat × String) RowLE :=
  ⟨fun a b c hab hbc => by unfold RowLE at *; omega⟩

/-- The rows after Rust's stable `sort_by` with the line-91 comparator.
`List.insertionSort` with the non-strict relation `RowLE` is a stable
sort, so on this total preorder it computes the same list as Rust's
stable sort. -/
def sortedRows (s cur : String) : List (Nat × Nat × String) :=
  List.insertionSort RowLE (sessionRows s cur)

/-- `tmux_session_list` (lines 71–94 of `main.rs`) as a function of the
raw listing text `s` and the current session name: the ranked session
names. -/
def tmux_session_list (s cur : String) : List String :=
  (sortedRows s cur).map (fun r => r.2.2)

/-- Outcome of one external command run to completion: either the OS
failed to start it (`err` with the OS error text), or it ran and we
have its exit status (`success`), captured stdout and stderr. -/
inductive Spawn where
  | err (oserr : String)
  | ran (success : Bool) (stdout : String) (stderr : String)
deriving DecidableEq

/-- Result of a code path that may terminate the process: `fatal code
displayed msg` models `die` (lines 53–56: `msg` printed to stderr,
`process::exit(code)`), after the error-display callback, when present,
was shown the failed subprocess's stderr (`displayed`); `ok` carries
the path's value. -/
inductive RunResult (α : Type) where
  | fatal (exitCode : Nat) (displayed : Option String) (msg : String)
  | ok (val : α)
deriving DecidableEq

/-- `wrap` (lines 150–162 of `main.rs`) as a function of the
subprocess's outcome and of whether the caller passed an error-display
callback: a spawn error dies with the OS error in the message; a
nonzero exit shows stderr through the callback when there is one, then
dies with "command failed"; success yields stdout. -/
def wrap (res : Spawn) (hasDisplayCb : Bool) : RunResult String :=
  match res with
  | .err e => .fatal 1 none ("spawn failed: " ++ e)
  | .ran success stdout stderr =>
    if success then .ok stdout
    else .fatal 1 (if hasDisplayCb then some stderr else none) "command failed"

/-- `tmux_session_list` including its subprocess call (line 74 of
`main.rs`): the call is `wrap!(tmux, &["list-sessions", "-F", FMT])`,
and the `wrap!` macro with two arguments defaults the third argument to
`Some(&mut tmux_message)` (line 47), so the error-display callback is
present (`true`) on this path. -/
def tmux_session_list_run (res : Spawn) (cur : String) : RunResult (List String) :=
  match wrap res true with
  | .fatal c d m => .fatal c d m
  | .ok s => .ok (tmux_session_list s cur)

/-- A command batch issued from `main` via `wrap!` with two macro
arguments (lines 212, 219, 241, 248): the callback again defaults to
`Some(&mut tmux_message)`. -/
def command_batch_run (res : Spawn) : RunResult String :=
  wrap res true

/-- The `wrap` call inside `tmux_message` (line 39): it is the one call
in the program that passes `None` as the callback. -/
def tmux_message_run (res : Spawn) : RunResult String :=
  wrap res false

/-- The `Choice` enum (lines 96–99 of `main.rs`). -/
inductive Choice where
  | FromSelection (name : String)
  | New (name : String)
deriving DecidableEq

/-- What lines 134–147 of `fzf_pick` decide from the collected fzf
output: `missingFirstLine` is the `die` on line 137; `canceled` is the
`None` return after `tmux_message("canceled")`; `choice c` is
`Some(c)`. -/
inductive PickResult where
  | missingFirstLine
  | canceled
  | choice (c : Choice)
deriving DecidableEq

/-- The resolution step of `fzf_pick` (lines 134–147): the first output
line is the query (its absence is fatal), a second line is the
selection; `success && selected.is_some()` yields `FromSelection`,
otherwise an empty query cancels and a nonempty query yields `New`. -/
def fzf_resolve (success : Bool) (stdout : String) : PickResult :=
  match rustLines stdout with
  | [] => .missingFirstLine
  | query :: rest =>
    match success, rest with
    | true, sel :: _ => .choice (.FromSelection sel)
    | _, _ => if query = "" then .canceled else .choice (.New query)

/-- Outcome of `fzf_pick` (lines 101–148): `fatal` models the `die` of
line 137, `noneQuiet` the `None` produced by the `?` operators of lines
120 (`.spawn().ok()?`) and 133 (`.wait_with_output().ok()?`) — an OS
error silently mapped to `None`, with no message — `noneCanceled` the
`None` returned after displaying "canceled", and `picked c`
`Some(c)`. -/
inductive FzfPickOutcome where
  | fatal (msg : String)
  | noneQuiet
  | noneCanceled
  | picked (c : Choice)
deriving DecidableEq

/-- `fzf_pick` as a function of the fzf subprocess's outcome (`spawn`
covers both `?` sites: a spawn failure on line 120 and an
output-collection failure on line 133 both become `.err`). -/
def fzf_pick (spawn : Spawn) : FzfPickOutcome :=
  match spawn with
  | .err _ => .noneQuiet
  | .ran success stdout _ =>
    match fzf_resolve success stdout with
    | .missingFirstLine => .fatal "output is missing first line"
    | .canceled => .noneCanceled
    | .choice c => .picked c

/-- The input buffer streamed once to fzf's stdin (lines 125–130 of
`main.rs`): each ranked item's bytes followed by one newline,
accumulated left to right, modelled at the character level. -/
def fzf_stdin_buf (items : List String) : List Char :=
  items.foldl (fun b it => b ++ it.data ++ ['\n']) []

/-- The text the `ls-switch-from` branch prints to stdout (lines
198–202 of `main.rs`): each ranked name via `println!`, i.e. followed
by one newline, nothing else. -/
def reload_hook_output (s cur : String) : String :=
  (tmux_session_list s cur).foldl (fun acc n => acc ++ n ++ "\n") ""

/-- The `Operation` a CLI verb selects (spec §3). -/
inductive Operation where
  | switchFrom
  | moveWindow
deriving DecidableEq

/-- One subprocess call to tmux: its argument vector and whether the
error-display callback is passed. -/
structure TmuxCall where
  args : List String
  hasDisplayCb : Bool
deriving DecidableEq

/-- Argument vector of lines 212–215 (`switch-from` × `FromSelection`). -/
def switch_from_sel_args (t : String) : List String :=
  ["switch-client", "-t", t, ";", "refresh-client", "-S"]

/-- Argument vector of lines 219–223 (`switch-from` × `New`). -/
def switch_from_new_args (t : String) : List String :=
  ["new-session", "-d", "-s", t, ";",
    "switch-client", "-t", t, ";",
    "refresh-client", "-S"]

/-- Argument vector of lines 241–245 (`move-window` × `FromSelection`);
`cw` is the current window id. -/
def move_window_sel_args (t cw : String) : List String :=
  ["move-window", "-t", t ++ ":", ";",
    "switch-client", "-t", t, ";",
    "select-window", "-t", cw]

/-- Argument vector of lines 248–253 (`move-window` × `New`). -/
def move_window_new_args (t cw : String) : List String :=
  ["new-session", "-d", "-s", t, ";",
    "move-window", "-s", cw, "-t", t ++ ":", ";",
    "switch-client", "-t", t, ";",
    "kill-window", "-t", t ++ ":!"]

/-- The tmux calls `main` issues once a choice is resolved (lines
209–256): every branch issues exactly one `wrap!` call, whose callback
defaults to `Some(&mut tmux_message)`. -/
def execute : Operation → Choice → String → List TmuxCall
  | .switchFrom, .FromSelection t, _ => [⟨switch_from_sel_args t, true⟩]
  | .switchFrom, .New t, _ => [⟨switch_from_new_args t, true⟩]
  | .moveWindow, .FromSelection t, cw => [⟨move_window_sel_args t cw, true⟩]
  | .moveWindow, .New t, cw => [⟨move_window_new_args t cw, true⟩]

/-- The usage string of line 165 of `main.rs`. -/
def USAGE : String :=
  "usage: rs-tmux-fzf \x7bswitch-from|move-window\x7d <current_session> [<current_window>]"

/-- The message of lines 195, 206 and 230. -/
def needSessionMsg : String :=
  "You must provide the current session name as the second argument"

/-- The message of line 234. -/
def needWindowMsg : String :=
  "You must provide the current window id as the third argument"

/-- What `main`'s argument handling decides (lines 186–259): a `die`
(message to stderr, exit code) or which branch runs with which
positional arguments. -/
inductive CliStep where
  | fatal (exitCode : Nat) (stderrMsg : String)
  | lsSwitchFrom (cur : String)
  | switchFrom (cur : String)
  | moveWindow (cur cw : String)
deriving DecidableEq

/-- `main`'s dispatch on `env::args().skip(1)` (lines 186–259): a
missing verb dies with the usage text; each branch takes its positional
arguments off the iterator, dying with a targeted message when one is
missing; an unrecognized verb dies with the usage text.  (Rust's
`match action.as_str()` is a sequence of string-equality tests.) -/
def parse_cli : List String → CliStep
  | [] => .fatal 1 USAGE
  | verb :: rest =>
    if verb = "ls-switch-from" then
      match rest with
      | [] => .fatal 1 needSessionMsg
      | cur :: _ => .lsSwitchFrom cur
    else if verb = "switch-from" then
      match rest with
      | [] => .fatal 1 needSessionMsg
      | cur :: _ => .switchFrom cur
    else if verb = "move-window" then
      match rest with
      | [] => .fatal 1 needSessionMsg
      | [_] => .fatal 1 needWindowMsg
      | cur :: cw :: _ => .moveWindow cur cw
    else .fatal 1 USAGE

/-- The ranked rows are sorted by the line-91 comparator relation. -/
theorem sortedRows_sorted (s cur : String) : List.Sorted RowLE (sortedRows s cur) :=
  List.sorted_insertionSort RowLE (sessionRows s cur)

/-- Membership in the ranked rows is membership in the parsed, kept rows. -/
theorem mem_sortedRows {r : Nat × Nat × String} {s cur : String} :
    r ∈ sortedRows s cur ↔ r ∈ sessionRows s cur :=
  List.mem_insertionSort RowLE

/-- Every kept row has a nonempty name different from the current session's. -/
theorem sessionRows_name_ok {r : Nat × Nat × String} {s cur : String}
    (h : r ∈ sessionRows s cur) : r.2.2 ≠ "" ∧ r.2.2 ≠ cur := by
  rcases List.mem_filterMap.mp h with ⟨line, -, hline⟩
  by_cases hc : (parseRow line).2.2 ≠ "" ∧ (parseRow line).2.2 ≠ cur
  · rw [if_pos hc] at hline
    injection hline with h2
    subst h2
    exact hc
  · rw [if_neg hc] at hline
    cases hline

/-- C1: in the Session Lister's ranked output, unattached sessions (wire
flag ≠ 0) all precede attached sessions (wire flag 0); within one
attachment class the last-attached timestamps are descending, so a
never-attached session (timestamp 0) is followed only by timestamp-0
sessions of its class; and the ranked list is exactly the names of these
sorted rows, in order. -/
theorem C1_ranking_order (s cur : String) :
    ((sortedRows s cur).Pairwise fun a b =>
      (a.1 = 0 → b.1 = 0) ∧ (a.1 = b.1 → b.2.1 ≤ a.2.1) ∧
        (a.1 = b.1 → a.2.1 = 0 → b.2.1 = 0)) ∧
    tmux_session_list s cur = (sortedRows s cur).map (fun r => r.2.2) :=
  ⟨List.Pairwise.imp (fun hab => by unfold RowLE at hab; omega)
    (sortedRows_sorted s cur), rfl⟩

/-- C4: for every raw listing and current session name, the ranked list
contains neither the current session's name nor an empty name. -/
theorem C4_excludes_current_and_empty (s cur : String) :
    cur ∉ tmux_session_list s cur ∧ "" ∉ tmux_session_list s cur := by
  constructor
  all_goals intro hmem
  all_goals unfold tmux_session_list at hmem
  all_goals rcases List.mem_map.mp hmem with ⟨r, hr, hname⟩
  all_goals have hok := sessionRows_name_ok (mem_sortedRows.mp hr)
  · exact hok.2 hname
  · exact hok.1 hname

/-- C10: the session name a listing line contributes is exactly the
third whitespace-separated token of that line — everything after it is
dropped, so a session name containing whitespace is silently truncated
to its first token. -/
theorem C10_name_is_third_token (line f t n : String) (rest : List String)
    (h : splitWhitespace line = f :: t :: n :: rest) :
    (parseRow line).2.2 = n := by
  simp [parseRow, h]

/-- C10 witness: on the listing line "0 123 a b" (a session named
"a b"), the parsed name is "a", and the ranked list shows "a". -/
theorem C10_witness :
    (parseRow "0 123 a b").2.2 = "a" ∧ tmux_session_list "0 123 a b" "c" = ["a"] :=
  ⟨C10_name_is_third_token "0 123 a b" "0" "123" "a" ["b"] rfl, rfl⟩

/-- C3 counterexample: on the listing "x 5 foo\n0 9 bar" with current
session "c", the line "x 5 foo" has an unparsable attached-flag.  The
code defaults the flag to 1 — the UNATTACHED wire value — so the record
sorts first, with the unattached sessions, not last as the claim says:
the ranked list is ["foo", "bar"], not ["bar", "foo"]. -/
theorem C3_counterexample :
    (parseRow "x 5 foo").1 = 1 ∧ (parseRow "0 9 bar").1 = 0 ∧
    tmux_session_list "x 5 foo\n0 9 bar" "c" = ["foo", "bar"] ∧
    tmux_session_list "x 5 foo\n0 9 bar" "c" ≠ ["bar", "foo"] :=
  ⟨rfl, rfl, rfl, by decide⟩

/-- C3 (amended): a missing or unparsable attached-flag field defaults
to 1, the unattached wire value, so the record is prioritized and sorts
with the unattached sessions, before every attached one; a missing or
unparsable timestamp field defaults to 0 and the record sorts last
within its attachment class. -/
theorem C3_amended_defaults (s cur line : String) :
    (((splitWhitespace line).get? 0).bind (fun x => parseUInt 8 x) = none →
      (parseRow line).1 = 1) ∧
    (((splitWhitespace line).get? 1).bind (fun x => parseUInt 64 x) = none →
      (parseRow line).2.1 = 0) ∧
    ((sortedRows s cur).Pairwise fun a b => a.1 = 0 → b.1 = 0) ∧
    ((sortedRows s cur).Pairwise fun a b => a.1 = b.1 → a.2.1 = 0 → b.2.1 = 0) := by
  refine ⟨fun h => ?_, fun h => ?_, ?_, ?_⟩
  · have hfst : (parseRow line).1 =
        (((splitWhitespace line).get? 0).bind (fun x => parseUInt 8 x)).getD 1 := rfl
    rw [hfst, h]
    rfl
  · have hsnd : (parseRow line).2.1 =
        (((splitWhitespace line).get? 1).bind (fun x => parseUInt 64 x)).getD 0 := rfl
    rw [hsnd, h]
    rfl
  · exact List.Pairwise.imp (fun hab => by unfold RowLE at hab; omega)
      (sortedRows_sorted s cur)
  · exact List.Pairwise.imp (fun hab => by unfold RowLE at hab; omega)
      (sortedRows_sorted s cur)

/-- C2 counterexample: with a failed exit status and fzf output
"\nfoo\n" — an EMPTY query line followed by a PRESENT second line — the
picker still cancels, so cancellation does not require the absence of a
second output line. -/
theorem C2_counterexample :
    rustLines "\nfoo\n" = ["", "foo"] ∧
    fzf_pick (.ran false "\nfoo\n" "") = .noneCanceled :=
  ⟨rfl, rfl⟩

/-- `fzf_pick` on a completed fzf run reports cancellation exactly when
the resolution step cancels. -/
theorem fzf_pick_ran_canceled (success : Bool) (stdout stderr : String) :
    fzf_pick (.ran success stdout stderr) = .noneCanceled ↔
      fzf_resolve success stdout = .canceled := by
  rcases hr : fzf_resolve success stdout <;> simp [fzf_pick, hr]

/-- C2 (amended): the picker returns the cancellation outcome iff the
first output line (the query) is empty and the selection branch was not
taken, i.e. not both an exit-success status and a present second line;
in particular, with no second line, an empty query always cancels. -/
theorem C2_cancel_iff (success : Bool) (stdout stderr query : String)
    (rest : List String) (h : rustLines stdout = query :: rest) :
    fzf_pick (.ran success stdout stderr) = .noneCanceled ↔
      (query = "" ∧ ¬(success = true ∧ rest ≠ [])) := by
  rw [fzf_pick_ran_canceled]
  unfold fzf_resolve
  rw [h]
  rcases success with _ | _ <;> rcases rest with _ | ⟨sel, rest'⟩ <;>
    by_cases hq : query = "" <;> simp [hq]

/-- C2 witness: with a failed exit and output "\n" (empty query, no
second line) the picker cancels. -/
theorem C2_cancel_iff_witness :
    fzf_pick (.ran false "\n" "") = .noneCanceled :=
  (C2_cancel_iff false "\n" "" "" [] rfl).mpr ⟨rfl, by simp⟩

/-- C5 counterexample: when the OS cannot start the fzf subprocess,
`fzf_pick` silently returns `None` (the `?` on `.spawn().ok()`), after
which `main` does nothing and exits 0 — the invocation is not fatal and
the spawn failure is converted into a successful no-op. -/
theorem C5_counterexample :
    fzf_pick (.err "No such file or directory (os error 2)") = .noneQuiet :=
  rfl

/-- C5 (amended): subprocesses run through `wrap` (every tmux call) are
fatal on spawn failure — exit code 1 with the underlying OS error in
the message — but the fuzzy-selector subprocess is not: a spawn (or
output-collection) failure of fzf is silently converted into the `None`
outcome, a successful no-op. -/
theorem C5_spawn_failure (e : String) (hasCb : Bool) :
    wrap (.err e) hasCb = .fatal 1 none ("spawn failed: " ++ e) ∧
    fzf_pick (.err e) = .noneQuiet :=
  ⟨rfl, rfl⟩

/-- C6 counterexample: the initial session-listing query also passes the
error-display callback (the `wrap!` macro defaults its third argument to
`Some(&mut tmux_message)`), so a failing `list-sessions` surfaces its
stderr through the display callback — which the claim denies. -/
theorem C6_counterexample :
    tmux_session_list_run (.ran false "" "boom") "main" =
      .fatal 1 (some "boom") "command failed" :=
  rfl

/-- C6 (amended): a nonzero tmux exit surfaces the subprocess's stderr
through the display callback before dying on BOTH the command-batch path
and the initial session-listing query; the only `wrap` call made without
a callback is the one inside `tmux_message` itself. -/
theorem C6_stderr_surfacing (cur stdout stderr : String) :
    command_batch_run (.ran false stdout stderr) =
      .fatal 1 (some stderr) "command failed" ∧
    tmux_session_list_run (.ran false stdout stderr) cur =
      .fatal 1 (some stderr) "command failed" ∧
    tmux_message_run (.ran false stdout stderr) =
      .fatal 1 none "command failed" :=
  ⟨rfl, rfl, rfl⟩

/-- C7: `move-window` with choice `New t` issues exactly one tmux call,
whose argument vector chains, in this order: create a new detached
session named `t`; move the current window `cw` into `t`; switch the
client to `t`; kill the placeholder window `t` started with. -/
theorem C7_move_window_new (t cw : String) :
    execute .moveWindow (.New t) cw =
      [⟨["new-session", "-d", "-s", t] ++ [";"] ++
        ["move-window", "-s", cw, "-t", t ++ ":"] ++ [";"] ++
        ["switch-client", "-t", t] ++ [";"] ++
        ["kill-window", "-t", t ++ ":!"], true⟩] ∧
    (execute .moveWindow (.New t) cw).length = 1 :=
  ⟨rfl, rfl⟩

/-- Printing strings each followed by a newline accumulates the same
characters as concatenating their character lists each followed by a
newline character. -/
theorem foldl_print_data (l : List String) (acc : String) :
    (l.foldl (fun a n => a ++ n ++ "\n") acc).data =
      l.foldl (fun b it => b ++ it.data ++ ['\n']) acc.data := by
  induction l generalizing acc with
  | nil => rfl
  | cons x xs ih =>
    simp only [List.foldl_cons]
    have h2 : (acc ++ x ++ "\n").data = acc.data ++ x.data ++ ['\n'] := by
      rw [String.data_append, String.data_append]
    rw [ih, h2]

/-- C8: for the same raw listing and the same current session name, the
text the Reload Hook prints (each ranked name followed by a newline,
nothing else) is character for character the buffer the Picker Protocol
streams to the selector subprocess's stdin. -/
theorem C8_roundtrip (s cur : String) :
    (reload_hook_output s cur).data = fzf_stdin_buf (tmux_session_list s cur) :=
  foldl_print_data (tmux_session_list s cur) ""

/-- C9: a missing or unrecognized verb dies with the usage message on
stderr and exit code 1; each recognized verb with a missing required
positional argument dies with its specific message and exit code 1. -/
theorem C9_cli_errors (v cur : String) (rest : List String)
    (h1 : v ≠ "ls-switch-from") (h2 : v ≠ "switch-from") (h3 : v ≠ "move-window") :
    parse_cli [] = .fatal 1 USAGE ∧
    parse_cli (v :: rest) = .fatal 1 USAGE ∧
    parse_cli ["ls-switch-from"] = .fatal 1 needSessionMsg ∧
    parse_cli ["switch-from"] = .fatal 1 needSessionMsg ∧
    parse_cli ["move-window"] = .fatal 1 needSessionMsg ∧
    parse_cli ["move-window", cur] = .fatal 1 needWindowMsg := by
  refine ⟨rfl, ?_, rfl, rfl, rfl, rfl⟩
  simp [parse_cli, h1, h2, h3]

/-- C9 witness: the verb "bogus" is unrecognized and dies with the usage
text; `move-window` with only a session argument dies asking for the
window id. -/
theorem C9_cli_errors_witness :
    parse_cli ["bogus"] = .fatal 1 USAGE ∧
    parse_cli ["move-window", "sess"] = .fatal 1 needWindowMsg :=
  ⟨(C9_cli_errors "bogus" "sess" [] (by decide) (by decide) (by decide)).2.1,
    (C9_cli_errors "bogus" "sess" [] (by decide) (by decide) (by decide)).2.2.2.2.2⟩
